import Mathlib

/-!
Verification of the playwright rendering service (`apps/playwright-service/main.py`).

The module under verification is a single-request render handler: it creates an
isolated browsing context (optionally configured with a proxy), optionally
installs a media-blocking interception rule, opens a page, applies custom
headers, navigates, classifies the HTTP status, optionally waits, extracts the
page content, optionally captures a screenshot to a temporary file and encodes
it as base64, closes the context and assembles the JSON payload.

The embedding below mirrors the handler line by line.  External effects
(the playwright primitives `set_extra_http_headers`, `goto`, `content`,
`screenshot`) are abstracted by an `Oracle` giving each primitive's outcome for
the request; the handler itself is a pure function from the environment
configuration, the oracle, the computed temporary-file path and the request
body to an outcome (`Except` a python exception) together with the ordered
trace of effect events it performed.
-/

/-- A python exception value. -/
inductive PyErr where
  /-- Raised by the interpreter itself, e.g. reading `.status` on `None`. -/
  | attributeError (msg : String)
  /-- Raised by a playwright primitive (navigation timeout, DNS failure, ...). -/
  | playwrightError (msg : String)
deriving DecidableEq

/-- Proxy settings passed to `browser.new_context`. -/
structure Proxy where
  server : String
  username : String
  password : String
deriving DecidableEq

/-- Process environment as read at startup (`environ.get`). -/
structure Env where
  PROXY_SERVER : Option String := none
  PROXY_USERNAME : Option String := none
  PROXY_PASSWORD : Option String := none
  BLOCK_MEDIA : Option String := none
deriving DecidableEq

/-- Request body (`class UrlModel(BaseModel)`), with the source's defaults.
`wait_after_load` is an `Int`: pydantic's `int` field accepts negative values
(no non-negativity validator is declared). -/
structure UrlModel where
  url : String
  wait_after_load : Int := 0
  timeout : Int := 15000
  headers : Option (List (String × String)) := none
  screenshot : Bool := false
  screenshot_full_page : Bool := false
deriving DecidableEq

/-- The response payload assembled at the end of the handler.  `pageError`
models the value bound to the `pageError` key (`None` = absent / null);
`screenshot` is `some` exactly when the handler adds the `screenshot` key. -/
structure RenderResult where
  content : String
  pageStatusCode : Nat
  pageError : Option String
  screenshot : Option String
deriving DecidableEq

/-- Effect events performed by the handler, in order. -/
inductive Event where
  | newContext (proxy : Option Proxy)
  | route (pat : String)
  | newPage
  | setHeaders
  | navigate (url : String) (timeoutMs : Int)
  | waitForTimeout (ms : Int)
  | extractContent
  | writeFile (path : String)
  | readFile (path : String)
  | deleteFile (path : String)
  | closeContext
deriving DecidableEq

/-- Outcomes of the external playwright primitives for one request. -/
structure Oracle where
  /-- Outcome of `page.set_extra_http_headers(body.headers)`. -/
  set_extra_http_headers : Except PyErr Unit
  /-- Outcome of `page.goto(...)`: an exception, or `Optional[Response]`
  carrying the HTTP status of the main response when one is produced. -/
  goto : Except PyErr (Option Nat)
  /-- Outcome of `page.content()`. -/
  content : Except PyErr String
  /-- Outcome of `page.screenshot(path=..., full_page=b)`: the bytes written
  to the temporary file, as a function of the `full_page` flag. -/
  screenshot : Bool → Except PyErr (List Nat)

/-- Python truthiness of an `Optional[str]`: `None` and `""` are falsy. -/
def pyTruthyStr : Option String → Bool
  | none => false
  | some s => if s = "" then false else true

/-- Python truthiness of an `Optional[dict]`: `None` and `{}` are falsy
(`if body.headers:`). -/
def headersTruthy : Option (List (String × String)) → Bool
  | none => false
  | some h => if h = [] then false else true

/-- ASCII model of python's `str.upper()`. -/
def pyCharUpper (c : Char) : Char :=
  if 'a' ≤ c ∧ c ≤ 'z' then Char.ofNat (c.toNat - 32) else c

/-- ASCII model of python's `str.upper()` on a whole string. -/
def pyUpper (s : String) : String := ⟨s.data.map pyCharUpper⟩

/-- `BLOCK_MEDIA = environ.get("BLOCK_MEDIA", "False").upper() == "TRUE"`. -/
def envBlockMedia (env : Env) : Bool :=
  pyUpper (env.BLOCK_MEDIA.getD "False") == "TRUE"

/-- The proxy configuration given to `browser.new_context`:
`if PROXY_SERVER and PROXY_USERNAME and PROXY_PASSWORD:` pass the triple,
else create the context with no proxy. -/
def proxyConfig (env : Env) : Option Proxy :=
  if pyTruthyStr env.PROXY_SERVER && pyTruthyStr env.PROXY_USERNAME &&
      pyTruthyStr env.PROXY_PASSWORD then
    some { server := env.PROXY_SERVER.getD ""
           username := env.PROXY_USERNAME.getD ""
           password := env.PROXY_PASSWORD.getD "" }
  else none

/-- The extension alternatives of the media-blocking glob. -/
def mediaExtensions : List String :=
  ["png", "jpg", "jpeg", "gif", "svg", "mp3", "mp4", "avi", "flac", "ogg", "wav", "webm"]

/-- The glob pattern passed to `context.route`. -/
def mediaPattern : String :=
  "**/*.\x7bpng,jpg,jpeg,gif,svg,mp3,mp4,avi,flac,ogg,wav,webm\x7d"

/-- Semantics of the glob `**/*.\x7bext1,...\x7d` on a resource path:
it matches exactly when the path ends in a dot followed by one of the
alternatives. -/
def matchesMediaGlob (path : String) : Bool :=
  mediaExtensions.any (fun ext => path.endsWith ("." ++ ext))

/-- Whether the per-context interception installed by the handler aborts a
page request for `path`: the route (whose handler unconditionally calls
`route.abort()`) is installed only when `BLOCK_MEDIA` is enabled, and it is
invoked exactly on paths matching the media glob. -/
def interceptAborts (env : Env) (path : String) : Bool :=
  envBlockMedia env && matchesMediaGlob path

/-- The base64 alphabet (RFC 4648, as used by `base64.b64encode`). -/
def b64Alphabet : List Char :=
  "ABCDEFGHIJKLMNOPQRSTUVWXYZabcdefghijklmnopqrstuvwxyz0123456789+/".data

/-- The base64 digit for a 6-bit value. -/
def b64Char (n : Nat) : Char := b64Alphabet.getD n 'A'

/-- Base64 encoding of a byte list, three bytes to four characters, with
`=` padding, as performed by `base64.b64encode`. -/
def b64encodeList : List Nat → List Char
  | [] => []
  | [a] => [b64Char (a / 4), b64Char (a % 4 * 16), '=', '=']
  | [a, b] => [b64Char (a / 4), b64Char (a % 4 * 16 + b / 16), b64Char (b % 16 * 4), '=']
  | a :: b :: c :: rest =>
      b64Char (a / 4) :: b64Char (a % 4 * 16 + b / 16) ::
        b64Char (b % 16 * 4 + c / 64) :: b64Char (c % 64) :: b64encodeList rest

/-- `base64.b64encode(data).decode("utf-8")`. -/
def b64encode (bs : List Nat) : String := ⟨b64encodeList bs⟩

/-- Modelled from the spec: the status-code classification of the `get_error`
module, which is imported by `main.py` but is not under `src/`.  Per the spec
(§4.5): 2xx/3xx codes yield no error; listed failure codes map to their fixed
strings; any other non-success code yields the generic
`Unknown Error (status <code>)` fallback. -/
def errorTable : List (Nat × String) :=
  [(401, "Unauthorized"), (403, "Forbidden"), (404, "Not Found"),
   (408, "Request Timeout"), (429, "Too Many Requests"),
   (500, "Internal Server Error"), (502, "Bad Gateway"),
   (503, "Service Unavailable"), (504, "Gateway Timeout")]

/-- Modelled from the spec: `get_error(status_code)` — `None` on the success
range (2xx/3xx), the table string on a classified failure code, and the
generic fallback otherwise. -/
def get_error (statusCode : Nat) : Option String :=
  if 200 ≤ statusCode ∧ statusCode < 400 then none
  else some ((errorTable.lookup statusCode).getD
    ("Unknown Error (status " ++ toString statusCode ++ ")"))

/-- Final payload assembly: `pageError` is always bound (possibly null);
the `screenshot` key is added only when the base64 string is truthy
(`if screenshot:`). -/
def finishResult (statusCode : Nat) (c : String) (shot : Option String) : RenderResult :=
  { content := c
    pageStatusCode := statusCode
    pageError := get_error statusCode
    screenshot :=
      match shot with
      | some sstr => if sstr = "" then none else some sstr
      | none => none }

/-- The screenshot block: when requested, `page.screenshot(path=tmp, full_page=...)`
writes the temporary file, the file is read back and base64-encoded; the
context is then closed.  No deletion of the temporary file occurs anywhere. -/
def screenshotStage (o : Oracle) (tmp : String) (body : UrlModel)
    (statusCode : Nat) (c : String) : Except PyErr RenderResult × List Event :=
  if body.screenshot || body.screenshot_full_page then
    match o.screenshot body.screenshot_full_page with
    | .error e => (.error e, [])
    | .ok bytes =>
        (.ok (finishResult statusCode c (some (b64encode bytes))),
         [Event.writeFile tmp, Event.readFile tmp, Event.closeContext])
  else (.ok (finishResult statusCode c none), [Event.closeContext])

/-- The wait and content-extraction block: `if body.wait_after_load > 0:
await page.wait_for_timeout(...)`, then `page.content()`. -/
def extractStage (o : Oracle) (tmp : String) (body : UrlModel)
    (statusCode : Nat) : Except PyErr RenderResult × List Event :=
  let waitEv : List Event :=
    if 0 < body.wait_after_load then [Event.waitForTimeout body.wait_after_load] else []
  match o.content with
  | .error e => (.error e, waitEv)
  | .ok c =>
      let next := screenshotStage o tmp body statusCode c
      (next.1, waitEv ++ Event.extractContent :: next.2)

/-- The navigation block: `response = await page.goto(...)` followed by the
unguarded `page_status_code = response.status` — when `goto` returns `None`
this raises an `AttributeError`. -/
def navStage (o : Oracle) (tmp : String) (body : UrlModel) :
    Except PyErr RenderResult × List Event :=
  match o.goto with
  | .error e => (.error e, [Event.navigate body.url body.timeout])
  | .ok none =>
      (.error (PyErr.attributeError "NoneType object has no attribute status"),
       [Event.navigate body.url body.timeout])
  | .ok (some statusCode) =>
      let next := extractStage o tmp body statusCode
      (next.1, Event.navigate body.url body.timeout :: next.2)

/-- The header block: `if body.headers: await page.set_extra_http_headers(...)`. -/
def headersStage (o : Oracle) (tmp : String) (body : UrlModel) :
    Except PyErr RenderResult × List Event :=
  if headersTruthy body.headers then
    match o.set_extra_http_headers with
    | .error e => (.error e, [Event.setHeaders])
    | .ok _ =>
        let next := navStage o tmp body
        (next.1, Event.setHeaders :: next.2)
  else navStage o tmp body

/-- The `POST /html` handler `root(body)`: create the context (with the proxy
exactly when all three proxy variables are truthy), install the media route
when `BLOCK_MEDIA` is enabled, open a page, then run the header, navigation,
extraction and screenshot stages.  Note that `context.close()` is only reached
on the successful path: any exception propagates out of the handler without
closing the context (the source has no `try`/`finally`). -/
def root (env : Env) (o : Oracle) (tmp : String) (body : UrlModel) :
    Except PyErr RenderResult × List Event :=
  let next := headersStage o tmp body
  (next.1,
   Event.newContext (proxyConfig env) ::
     ((if envBlockMedia env then [Event.route mediaPattern] else []) ++
       Event.newPage :: next.2))

instance : DecidableEq (Except PyErr RenderResult) := fun a b => by
  cases a <;> cases b <;> first
    | (apply isFalse; intro h; exact Except.noConfusion h)
    | (rename_i x y; exact match decEq x y with
        | isTrue hxy => isTrue (by rw [hxy])
        | isFalse hxy => isFalse (fun h => hxy (by injection h)))

/-- Recognizer for context-creation events. -/
def isNewContextEvent : Event → Bool
  | Event.newContext _ => true
  | _ => false

/-- Recognizer for context-close events. -/
def isCloseContextEvent : Event → Bool
  | Event.closeContext => true
  | _ => false

/-- Recognizer for navigation events. -/
def isNavigateEvent : Event → Bool
  | Event.navigate _ _ => true
  | _ => false

/-- Recognizer for content-extraction events. -/
def isExtractEvent : Event → Bool
  | Event.extractContent => true
  | _ => false

/-- Recognizer for temporary-file write events. -/
def isWriteFileEvent : Event → Bool
  | Event.writeFile _ => true
  | _ => false

/-- Recognizer for file-deletion events. -/
def isDeleteFileEvent : Event → Bool
  | Event.deleteFile _ => true
  | _ => false

/-- Whether the handler returned normally. -/
def isOkResult : Except PyErr RenderResult → Bool
  | .ok _ => true
  | .error _ => false

/-- The spec's notion of a configured, non-empty environment variable. -/
def ConfiguredNonEmpty (x : Option String) : Prop :=
  ∃ s, x = some s ∧ s ≠ ""

/-- The environment with the three proxy variables removed. -/
def noProxyEnv (env : Env) : Env :=
  { env with PROXY_SERVER := none, PROXY_USERNAME := none, PROXY_PASSWORD := none }

/-- A default environment: no proxy variables, no `BLOCK_MEDIA`. -/
def wEnv : Env := {}

/-- A partially configured proxy environment (server only). -/
def wEnvPartialProxy : Env := { PROXY_SERVER := some "http://proxy:8080" }

/-- A minimal request body. -/
def wBody : UrlModel := { url := "http://example.com" }

/-- A request body asking for a viewport screenshot. -/
def wBodyShot : UrlModel := { url := "http://example.com", screenshot := true }

/-- A request body with custom headers and a positive post-load wait. -/
def wBodyWait : UrlModel :=
  { url := "http://example.com", wait_after_load := 500,
    headers := some [("User-Agent", "test")] }

/-- A request body with a negative post-load wait. -/
def wBodyNeg : UrlModel := { url := "http://example.com", wait_after_load := -5 }

/-- Sample PNG header bytes standing for a captured screenshot. -/
def wPng : List Nat := [137, 80, 78, 71, 13, 10, 26, 10]

/-- Oracle for a fully successful plain render (status 200). -/
def wOracle200 : Oracle :=
  { set_extra_http_headers := .ok ()
    goto := .ok (some 200)
    content := .ok "<html>ok</html>"
    screenshot := fun _ => .ok wPng }

/-- Oracle returning a 404 main response. -/
def wOracle404 : Oracle := { wOracle200 with goto := .ok (some 404) }

/-- Oracle whose navigation raises a timeout. -/
def wOracleNavFail : Oracle :=
  { wOracle200 with goto := .error (PyErr.playwrightError "Timeout 15000ms exceeded") }

/-- Oracle whose navigation completes without a main response object. -/
def wOracleGotoNone : Oracle := { wOracle200 with goto := .ok none }

/-- The temporary screenshot path computed by the handler for the request. -/
def wTmp : String := "/tmp/screenshot_1700000000.0.png"

/-- Full evaluation of the handler when every external primitive succeeds:
the result payload and the exact event trace, in order. -/
theorem root_success (env : Env) (o : Oracle) (tmp : String) (body : UrlModel)
    (s : Nat) (c : String) (bs : List Nat)
    (hh : o.set_extra_http_headers = .ok ())
    (hg : o.goto = .ok (some s))
    (hc : o.content = .ok c)
    (hs : o.screenshot body.screenshot_full_page = .ok bs) :
    root env o tmp body =
      (.ok { content := c, pageStatusCode := s, pageError := get_error s,
             screenshot :=
               if body.screenshot || body.screenshot_full_page then
                 (if b64encode bs = "" then none else some (b64encode bs))
               else none },
       Event.newContext (proxyConfig env) ::
         ((if envBlockMedia env then [Event.route mediaPattern] else []) ++
           (Event.newPage ::
             ((if headersTruthy body.headers then [Event.setHeaders] else []) ++
               (Event.navigate body.url body.timeout ::
                 ((if 0 < body.wait_after_load then
                     [Event.waitForTimeout body.wait_after_load] else []) ++
                   (Event.extractContent ::
                     ((if body.screenshot || body.screenshot_full_page then
                         [Event.writeFile tmp, Event.readFile tmp] else []) ++
                       [Event.closeContext])))))))) := by
  by_cases hb : headersTruthy body.headers <;>
  by_cases hw : 0 < body.wait_after_load <;>
  by_cases hshot : (body.screenshot || body.screenshot_full_page) = true <;>
  simp [root, headersStage, navStage, extractStage, screenshotStage, finishResult,
    hh, hg, hc, hs, hb, hw, hshot]

/-- Python truthiness of an optional string coincides with the spec's
"configured non-empty". -/
theorem pyTruthyStr_iff (x : Option String) :
    pyTruthyStr x = true ↔ ConfiguredNonEmpty x := by
  cases x with
  | none => simp [pyTruthyStr, ConfiguredNonEmpty]
  | some s => by_cases h : s = "" <;> simp [pyTruthyStr, ConfiguredNonEmpty, h]

/-- The context proxy is present exactly when all three proxy variables are
configured non-empty. -/
theorem proxyConfig_isSome (env : Env) :
    (proxyConfig env).isSome = true ↔
      (ConfiguredNonEmpty env.PROXY_SERVER ∧ ConfiguredNonEmpty env.PROXY_USERNAME ∧
        ConfiguredNonEmpty env.PROXY_PASSWORD) := by
  rw [← pyTruthyStr_iff, ← pyTruthyStr_iff, ← pyTruthyStr_iff]
  unfold proxyConfig
  split <;> rename_i h <;> simp [Bool.and_eq_true] at h ⊢ <;> tauto

/-- The classification is a present error exactly off the 2xx/3xx range. -/
theorem get_error_isSome (k : Nat) :
    (get_error k).isSome = true ↔ ¬(200 ≤ k ∧ k < 400) := by
  unfold get_error
  split <;> simp_all

/-- Base64 of a non-empty byte list is a non-empty string. -/
theorem b64encode_ne_empty (bs : List Nat) (h : bs ≠ []) : b64encode bs ≠ "" := by
  intro he
  have hd : b64encodeList bs = [] := congrArg String.data he
  match bs, h with
  | [a], _ => simp [b64encodeList] at hd
  | [a, b], _ => simp [b64encodeList] at hd
  | a :: b :: c :: r, _ => simp [b64encodeList] at hd

/-- No stage after context creation emits a route-installation event. -/
theorem route_not_in_headersStage (o : Oracle) (tmp : String) (body : UrlModel)
    (q : String) : Event.route q ∉ (headersStage o tmp body).2 := by
  rcases hh : o.set_extra_http_headers with e | u <;>
  rcases hg : o.goto with e2 | _ | s <;>
  rcases hc : o.content with e3 | c <;>
  rcases hs2 : o.screenshot body.screenshot_full_page with e4 | bs <;>
  simp [headersStage, navStage, extractStage, screenshotStage, hh, hg, hc, hs2] <;>
  split_ifs <;> simp_all

/-- C1: evaluated at a request whose navigation raises, the handler opens
exactly one browsing context, propagates the navigation error, and performs
no context close — `context.close()` is not reached on the exception exit
path, so the context leaks. -/
theorem context_leak_on_nav_failure :
    (root wEnv wOracleNavFail wTmp wBody).1
        = .error (PyErr.playwrightError "Timeout 15000ms exceeded") ∧
    (root wEnv wOracleNavFail wTmp wBody).2.countP isNewContextEvent = 1 ∧
    (root wEnv wOracleNavFail wTmp wBody).2.countP isCloseContextEvent = 0 :=
  ⟨rfl, by decide, by decide⟩

/-- C2: on every successful navigation the payload's `pageError` is the
classification of the main status code: present exactly when the code is
outside the 2xx/3xx success range, equal to the fixed table string for each
classified code, absent on every success code, and equal to the generic
fallback on every unmapped non-success code. -/
theorem pageError_iff_non_success (env : Env) (o : Oracle) (tmp : String)
    (body : UrlModel) (s : Nat) (c : String) (bs : List Nat)
    (hh : o.set_extra_http_headers = .ok ())
    (hg : o.goto = .ok (some s))
    (hc : o.content = .ok c)
    (hs : o.screenshot body.screenshot_full_page = .ok bs) :
    ∃ r : RenderResult, (root env o tmp body).1 = .ok r ∧
      r.pageError = get_error s ∧
      (r.pageError.isSome = true ↔ ¬(200 ≤ s ∧ s < 400)) ∧
      get_error 401 = some "Unauthorized" ∧
      get_error 403 = some "Forbidden" ∧
      get_error 404 = some "Not Found" ∧
      get_error 408 = some "Request Timeout" ∧
      get_error 429 = some "Too Many Requests" ∧
      get_error 500 = some "Internal Server Error" ∧
      get_error 502 = some "Bad Gateway" ∧
      get_error 503 = some "Service Unavailable" ∧
      get_error 504 = some "Gateway Timeout" ∧
      (∀ k, 200 ≤ k → k < 400 → get_error k = none) ∧
      (∀ k, ¬(200 ≤ k ∧ k < 400) → errorTable.lookup k = none →
        get_error k = some ("Unknown Error (status " ++ toString k ++ ")")) := by
  refine ⟨_, congrArg Prod.fst (root_success env o tmp body s c bs hh hg hc hs),
    rfl, get_error_isSome s, by decide, by decide, by decide, by decide, by decide,
    by decide, by decide, by decide, by decide, ?_, ?_⟩
  · intro k h1 h2
    unfold get_error
    rw [if_pos ⟨h1, h2⟩]
  · intro k hk hlk
    unfold get_error
    rw [if_neg hk, hlk]
    rfl

/-- C2 witness: a concrete 404 render carries `pageError = "Not Found"`. -/
theorem pageError_iff_non_success_witness :
    wOracle404.goto = .ok (some 404) ∧
    ∃ r : RenderResult, (root wEnv wOracle404 wTmp wBody).1 = .ok r ∧
      r.pageError = some "Not Found" := by
  refine ⟨rfl, ?_⟩
  obtain ⟨r, h1, h2, -⟩ :=
    pageError_iff_non_success wEnv wOracle404 wTmp wBody 404 "<html>ok</html>"
      wPng rfl rfl rfl rfl
  exact ⟨r, h1, by rw [h2]; decide⟩

/-- C3: the context proxy is present exactly when all three of
`PROXY_SERVER`, `PROXY_USERNAME` and `PROXY_PASSWORD` are configured
non-empty; under any partial configuration the context is created with no
proxy; the context-creation event always carries `proxyConfig env`; and the
handler's outcome never depends on the proxy variables (so no error is
surfaced by a partial configuration). -/
theorem proxy_all_or_nothing (env : Env) (o : Oracle) (tmp : String)
    (body : UrlModel) :
    ((proxyConfig env).isSome = true ↔
      (ConfiguredNonEmpty env.PROXY_SERVER ∧ ConfiguredNonEmpty env.PROXY_USERNAME ∧
        ConfiguredNonEmpty env.PROXY_PASSWORD)) ∧
    (¬(ConfiguredNonEmpty env.PROXY_SERVER ∧ ConfiguredNonEmpty env.PROXY_USERNAME ∧
        ConfiguredNonEmpty env.PROXY_PASSWORD) →
      (root env o tmp body).2.head? = some (Event.newContext none)) ∧
    (root env o tmp body).2.head? = some (Event.newContext (proxyConfig env)) ∧
    (root env o tmp body).1 = (root (noProxyEnv env) o tmp body).1 := by
  refine ⟨proxyConfig_isSome env, ?_, rfl, rfl⟩
  intro hnc
  have hnone : proxyConfig env = none := by
    cases hp : proxyConfig env with
    | none => rfl
    | some p =>
        exact absurd ((proxyConfig_isSome env).mp (by rw [hp]; rfl)) hnc
  show some (Event.newContext (proxyConfig env)) = some (Event.newContext none)
  rw [hnone]

/-- C3 witness: with only `PROXY_SERVER` set, the context is created with no
proxy and the proxy configuration is absent. -/
theorem proxy_all_or_nothing_witness :
    proxyConfig wEnvPartialProxy = none ∧
    (root wEnvPartialProxy wOracle200 wTmp wBody).2.head?
        = some (Event.newContext none) := by
  have h := proxy_all_or_nothing wEnvPartialProxy wOracle200 wTmp wBody
  have hnc : ¬(ConfiguredNonEmpty wEnvPartialProxy.PROXY_SERVER ∧
      ConfiguredNonEmpty wEnvPartialProxy.PROXY_USERNAME ∧
      ConfiguredNonEmpty wEnvPartialProxy.PROXY_PASSWORD) := by
    rintro ⟨-, ⟨s, hs, -⟩, -⟩
    exact Option.noConfusion hs
  refine ⟨?_, h.2.1 hnc⟩
  cases hp : proxyConfig wEnvPartialProxy with
  | none => rfl
  | some p => exact absurd ((h.1).mp (by rw [hp]; rfl)) hnc

/-- C4: on a successful render, the event trace is exactly — context creation,
optional route installation, page open, header application exactly when
headers were supplied, navigation, a post-load wait of `wait_after_load`
exactly when it is positive (and no wait event otherwise), content
extraction, the optional screenshot file write/read, and context close — so
headers precede navigation, navigation precedes the wait, and the wait
precedes content extraction. -/
theorem render_step_ordering (env : Env) (o : Oracle) (tmp : String)
    (body : UrlModel) (s : Nat) (c : String) (bs : List Nat)
    (hh : o.set_extra_http_headers = .ok ())
    (hg : o.goto = .ok (some s))
    (hc : o.content = .ok c)
    (hs : o.screenshot body.screenshot_full_page = .ok bs) :
    (root env o tmp body).2 =
      Event.newContext (proxyConfig env) ::
        ((if envBlockMedia env then [Event.route mediaPattern] else []) ++
          (Event.newPage ::
            ((if headersTruthy body.headers then [Event.setHeaders] else []) ++
              (Event.navigate body.url body.timeout ::
                ((if 0 < body.wait_after_load then
                    [Event.waitForTimeout body.wait_after_load] else []) ++
                  (Event.extractContent ::
                    ((if body.screenshot || body.screenshot_full_page then
                        [Event.writeFile tmp, Event.readFile tmp] else []) ++
                      [Event.closeContext]))))))) :=
  congrArg Prod.snd (root_success env o tmp body s c bs hh hg hc hs)

/-- C4 witness: a concrete request with headers and a 500 ms wait yields the
trace headers → navigate → wait → extract, with the wait present. -/
theorem render_step_ordering_witness :
    (root wEnv wOracle200 wTmp wBodyWait).2 =
      [Event.newContext none, Event.newPage, Event.setHeaders,
       Event.navigate "http://example.com" 15000, Event.waitForTimeout 500,
       Event.extractContent, Event.closeContext] := by
  rw [render_step_ordering wEnv wOracle200 wTmp wBodyWait 200 "<html>ok</html>"
    wPng rfl rfl rfl rfl]
  decide

/-- C5: on a successful render whose captured image is non-empty, the
`screenshot` key is present in the payload exactly when the request set
`screenshot` or `screenshot_full_page`; when present it is the base64
encoding of the bytes captured with the request's `full_page` flag; and its
presence is unchanged under any other navigation status code. -/
theorem screenshot_presence_request_driven (env : Env) (o : Oracle)
    (tmp : String) (body : UrlModel) (s : Nat) (c : String) (bs : List Nat)
    (hh : o.set_extra_http_headers = .ok ())
    (hg : o.goto = .ok (some s))
    (hc : o.content = .ok c)
    (hs : o.screenshot body.screenshot_full_page = .ok bs)
    (hne : bs ≠ []) :
    ∃ r : RenderResult, (root env o tmp body).1 = .ok r ∧
      (r.screenshot.isSome = true ↔
        (body.screenshot || body.screenshot_full_page) = true) ∧
      ((body.screenshot || body.screenshot_full_page) = true →
        r.screenshot = some (b64encode bs)) ∧
      (∀ s2 : Nat, ∃ r2 : RenderResult,
        (root env { o with goto := .ok (some s2) } tmp body).1 = .ok r2 ∧
        r2.screenshot = r.screenshot) := by
  have hb64 : ¬ b64encode bs = "" := b64encode_ne_empty bs hne
  refine ⟨_, congrArg Prod.fst (root_success env o tmp body s c bs hh hg hc hs),
    ?_, ?_, ?_⟩
  · by_cases hshot : (body.screenshot || body.screenshot_full_page) = true <;>
      simp [hshot, hb64]
  · intro hshot
    simp [hshot, hb64]
  · intro s2
    refine ⟨_, congrArg Prod.fst
      (root_success env { o with goto := .ok (some s2) } tmp body s2 c bs hh rfl hc hs),
      rfl⟩

/-- C5 witness: a concrete screenshot-requesting render carries the base64
encoding of the captured bytes. -/
theorem screenshot_presence_request_driven_witness :
    ∃ r : RenderResult, (root wEnv wOracle200 wTmp wBodyShot).1 = .ok r ∧
      r.screenshot = some (b64encode wPng) ∧
      r.screenshot = some "iVBORw0KGgo=" := by
  obtain ⟨r, h1, -, h3, -⟩ :=
    screenshot_presence_request_driven wEnv wOracle200 wTmp wBodyShot 200
      "<html>ok</html>" wPng rfl rfl rfl rfl (by decide)
  have hr := h3 (by decide)
  exact ⟨r, h1, hr, by rw [hr]; decide⟩

/-- C6 counterexample: a concrete successful screenshot-capturing request
after which the temporary file has been written and read back, yet no file
deletion whatsoever has occurred — refuting the claim that the temporary
screenshot file is deleted after encoding. -/
theorem screenshot_tmpfile_not_deleted_cex :
    isOkResult (root wEnv wOracle200 wTmp wBodyShot).1 = true ∧
    (root wEnv wOracle200 wTmp wBodyShot).2.countP isWriteFileEvent = 1 ∧
    Event.readFile wTmp ∈ (root wEnv wOracle200 wTmp wBodyShot).2 ∧
    (root wEnv wOracle200 wTmp wBodyShot).2.countP isDeleteFileEvent = 0 := by
  refine ⟨rfl, by decide, by decide, by decide⟩

/-- File-effect counts of the screenshot stage: no deletion, at most one
write. -/
theorem file_counts_screenshotStage (o : Oracle) (tmp : String)
    (body : UrlModel) (st : Nat) (c : String) :
    (screenshotStage o tmp body st c).2.countP isDeleteFileEvent = 0 ∧
    (screenshotStage o tmp body st c).2.countP isWriteFileEvent ≤ 1 := by
  unfold screenshotStage
  rcases hs2 : o.screenshot body.screenshot_full_page with e | bs <;>
  split_ifs <;>
  simp [List.countP_cons, isDeleteFileEvent, isWriteFileEvent]

/-- File-effect counts of the wait/extraction stage: no deletion, at most one
write. -/
theorem file_counts_extractStage (o : Oracle) (tmp : String)
    (body : UrlModel) (st : Nat) :
    (extractStage o tmp body st).2.countP isDeleteFileEvent = 0 ∧
    (extractStage o tmp body st).2.countP isWriteFileEvent ≤ 1 := by
  have hss := file_counts_screenshotStage o tmp body st
  unfold extractStage
  rcases hc : o.content with e | c <;>
  split_ifs <;>
  simp [List.countP_cons, List.countP_append, isDeleteFileEvent, isWriteFileEvent,
    (hss _).1, (hss _).2]

/-- File-effect counts of the header stage: no deletion, at most one write. -/
theorem file_counts_headersStage (o : Oracle) (tmp : String)
    (body : UrlModel) :
    (headersStage o tmp body).2.countP isDeleteFileEvent = 0 ∧
    (headersStage o tmp body).2.countP isWriteFileEvent ≤ 1 := by
  unfold headersStage navStage
  rcases hh : o.set_extra_http_headers with e | u <;>
  rcases hg : o.goto with e2 | _ | s <;>
  split_ifs <;>
  simp [List.countP_cons, isDeleteFileEvent, isWriteFileEvent,
    (file_counts_extractStage o tmp body _).1, (file_counts_extractStage o tmp body _).2]

/-- C6 (amended): the handler performs no file deletion on any path, and
writes the temporary screenshot file at most once — the screenshot artifact
written for a capturing request is left on disk after the request ends. -/
theorem screenshot_tmpfile_never_deleted (env : Env) (o : Oracle)
    (tmp : String) (body : UrlModel) :
    (root env o tmp body).2.countP isDeleteFileEvent = 0 ∧
    (root env o tmp body).2.countP isWriteFileEvent ≤ 1 := by
  have hhs := file_counts_headersStage o tmp body
  unfold root
  split_ifs <;>
  simp [List.countP_cons, List.countP_append, isDeleteFileEvent, isWriteFileEvent,
    hhs.1, hhs.2]

/-- C7: media blocking is enabled exactly when `BLOCK_MEDIA` equals `"true"`
case-insensitively; the interception rule is installed on the context exactly
when it is enabled; and it aborts a page request exactly when the resource
path ends in one of the twelve media extensions. -/
theorem media_blocking_policy (env : Env) (o : Oracle) (tmp : String)
    (body : UrlModel) (path : String) :
    (envBlockMedia env = true ↔
      pyUpper (env.BLOCK_MEDIA.getD "False") = pyUpper "true") ∧
    (Event.route mediaPattern ∈ (root env o tmp body).2 ↔ envBlockMedia env = true) ∧
    (interceptAborts env path = true ↔
      (envBlockMedia env = true ∧
        ∃ ext ∈ mediaExtensions, path.endsWith ("." ++ ext) = true)) := by
  refine ⟨?_, ?_, ?_⟩
  · have ht : pyUpper "true" = "TRUE" := by decide
    rw [ht]
    simp [envBlockMedia]
  · by_cases hm : envBlockMedia env
    · simp [root, hm]
    · simp [root, hm, route_not_in_headersStage]
  · simp [interceptAborts, matchesMediaGlob, Bool.and_eq_true, List.any_eq_true]

/-- C8: when navigation raises, the handler propagates that very exception —
it never returns a payload (no partial result) — navigates exactly once (no
retry), and performs no content extraction and no screenshot file write. -/
theorem nav_failure_no_partial_result (env : Env) (o : Oracle) (tmp : String)
    (body : UrlModel) (e : PyErr)
    (hh : o.set_extra_http_headers = .ok ())
    (hg : o.goto = .error e) :
    (root env o tmp body).1 = .error e ∧
    (∀ r : RenderResult, (root env o tmp body).1 ≠ .ok r) ∧
    (root env o tmp body).2.countP isNavigateEvent = 1 ∧
    (root env o tmp body).2.countP isExtractEvent = 0 ∧
    (root env o tmp body).2.countP isWriteFileEvent = 0 := by
  by_cases hb : headersTruthy body.headers <;>
  by_cases hm : envBlockMedia env <;>
  simp [root, headersStage, navStage, hh, hg, hb, hm, List.countP_cons,
    List.countP_append, isNavigateEvent, isExtractEvent, isWriteFileEvent]

/-- C8 witness: a concrete navigation timeout propagates as the request
outcome with a single navigation attempt. -/
theorem nav_failure_no_partial_result_witness :
    wOracleNavFail.goto = .error (PyErr.playwrightError "Timeout 15000ms exceeded") ∧
    (root wEnv wOracleNavFail wTmp wBody).1
        = .error (PyErr.playwrightError "Timeout 15000ms exceeded") ∧
    (root wEnv wOracleNavFail wTmp wBody).2.countP isNavigateEvent = 1 := by
  have h := nav_failure_no_partial_result wEnv wOracleNavFail wTmp wBody
    (PyErr.playwrightError "Timeout 15000ms exceeded") rfl rfl
  exact ⟨rfl, h.1, h.2.2.1⟩

/-- C9: a negative `wait_after_load` is accepted and the handler behaves
identically to `wait_after_load = 0`: same outcome and same event trace (in
particular, no post-load wait is applied). -/
theorem negative_wait_equiv_zero (env : Env) (o : Oracle) (tmp : String)
    (body : UrlModel) (hneg : body.wait_after_load < 0) :
    root env o tmp body = root env o tmp { body with wait_after_load := 0 } := by
  have h1 : ¬ (0 : Int) < body.wait_after_load := by omega
  rcases hh : o.set_extra_http_headers with e | u <;>
  rcases hg : o.goto with e2 | _ | s <;>
  rcases hc : o.content with e3 | c <;>
  rcases hs2 : o.screenshot body.screenshot_full_page with e4 | bs <;>
  simp [root, headersStage, navStage, extractStage, screenshotStage, finishResult,
    hh, hg, hc, hs2, h1]

/-- C9 witness: `wait_after_load = -5` renders exactly like
`wait_after_load = 0`. -/
theorem negative_wait_equiv_zero_witness :
    wBodyNeg.wait_after_load < 0 ∧
    root wEnv wOracle200 wTmp wBodyNeg
      = root wEnv wOracle200 wTmp { wBodyNeg with wait_after_load := 0 } :=
  ⟨by decide, negative_wait_equiv_zero wEnv wOracle200 wTmp wBodyNeg (by decide)⟩

/-- C10: when navigation completes without producing a response object, the
unguarded `response.status` read raises an `AttributeError`: the handler
returns no payload and never reaches content extraction — the status read is
safe only under the precondition that navigation yielded a response. -/
theorem goto_none_raises (env : Env) (o : Oracle) (tmp : String)
    (body : UrlModel)
    (hh : o.set_extra_http_headers = .ok ())
    (hg : o.goto = .ok none) :
    (root env o tmp body).1
        = .error (PyErr.attributeError "NoneType object has no attribute status") ∧
    (∀ r : RenderResult, (root env o tmp body).1 ≠ .ok r) ∧
    (root env o tmp body).2.countP isExtractEvent = 0 := by
  by_cases hb : headersTruthy body.headers <;>
  by_cases hm : envBlockMedia env <;>
  simp [root, headersStage, navStage, hh, hg, hb, hm, List.countP_cons,
    List.countP_append, isExtractEvent]

/-- C10 witness: a concrete `goto` returning no response makes the handler
raise the attribute error instead of returning a payload. -/
theorem goto_none_raises_witness :
    wOracleGotoNone.goto = .ok none ∧
    (root wEnv wOracleGotoNone wTmp wBody).1
        = .error (PyErr.attributeError "NoneType object has no attribute status") := by
  have h := goto_none_raises wEnv wOracleGotoNone wTmp wBody rfl rfl
  exact ⟨rfl, h.1⟩
